import Mathlib

/-!
Shallow embedding of the proof-of-hat scripts: a tweet resolver that picks an
image URL out of a tweet's media attachments, and two variants of a visual
verifier that query a multimodal inference API.  Remote calls are modelled by
passing the response (or the thrown error's message) as an explicit argument;
console output is modelled as a list of log lines returned next to the result.
-/

namespace ProofOfHat

/-- One media attachment of a tweet: a type tag (`"photo"` or `"video"`), an
optional direct `url`, and an optional `preview_image_url`, as requested by the
`media.fields` parameter of the lookup. -/
structure MediaAttachment where
  type : String
  url : Option String
  preview_image_url : Option String
deriving Repr, DecidableEq

/-- JavaScript truthiness of an optional string field: present and non-empty. -/
def truthy : Option String → Bool
  | none => false
  | some s => s != ""

/-- The image-URL selection inside `fetchTweetData` (identical in both source
files): prefer the first photo with a direct `url`, else the first photo with a
`preview_image_url`, else the first video with a `preview_image_url`, scanning
the media list in API-returned order with `find`. -/
def selectImageUrl : Option (List MediaAttachment) → Option String
  | none => none
  | some media =>
    if media.length > 0 then
      match media.find? (fun m => m.type == "photo" && truthy m.url) with
      | some photoMedia => photoMedia.url
      | none =>
        match media.find? (fun m => m.type == "photo" && truthy m.preview_image_url) with
        | some photoPreviewMedia => photoPreviewMedia.preview_image_url
        | none =>
          match media.find? (fun m => m.type == "video" && truthy m.preview_image_url) with
          | some videoMediaWithPreview => videoMediaWithPreview.preview_image_url
          | none => none
    else none

/-- One entry of the tweet lookup's `errors` array. -/
structure TweetError where
  detail : Option String
  title : String
deriving Repr, DecidableEq

/-- The tweet payload (`tweet.data`). -/
structure TweetData where
  text : String
deriving Repr, DecidableEq

/-- Shape of the tweet-lookup response consumed by `fetchTweetData`:
`tweet.errors`, `tweet.data` and `tweet.includes?.media`. -/
structure TweetResponse where
  errors : Option (List TweetError)
  data : Option TweetData
  includes_media : Option (List MediaAttachment)
deriving Repr, DecidableEq

/-- The resolver's return value `{ imageUrl, text }`. -/
structure ResolvedImage where
  imageUrl : Option String
  text : Option String
deriving Repr, DecidableEq

/-- A console line together with the channel it is printed on. -/
inductive LogLine
  | info (s : String)
  | warn (s : String)
  | err (s : String)
deriving Repr, DecidableEq

/-- JavaScript `a || b` for an optional string `a` against a default `b`:
an absent or empty `a` falls through to `b`. -/
def jsOr (a : Option String) (b : String) : String :=
  match a with
  | some s => if s = "" then b else s
  | none => b

/-- `fetchTweetData` from the source (identical in both variants), as a function
of the tweet id and the lookup response: returns the console lines it prints and
either the resolved image or the message of the error it throws.  The trailing
catch block re-wraps any error thrown inside the body. -/
def fetchTweetData (tweetId : String) (resp : TweetResponse) :
    List LogLine × Except String ResolvedImage :=
  let fetchLog := LogLine.info ("Fetching tweet from Twitter API: " ++ tweetId)
  let inner : List LogLine × Except String ResolvedImage :=
    match resp.errors with
    | some (e :: _) =>
      let errorDetail := jsOr e.detail e.title
      ([LogLine.err ("Error fetching tweet: " ++ errorDetail)],
        Except.error ("Failed to fetch tweet: " ++ errorDetail))
    | _ =>
      match resp.data with
      | none => ([], Except.error "Tweet data not found in API response.")
      | some d =>
        let imageUrl := selectImageUrl resp.includes_media
        let warns :=
          match imageUrl with
          | none => [LogLine.warn ("Tweet " ++ tweetId ++
              " does not appear to contain a usable image URL (photo or video thumbnail).")]
          | some _ => []
        (warns, Except.ok ⟨imageUrl, some d.text⟩)
  match inner with
  | (logs, Except.ok r) => (fetchLog :: logs, Except.ok r)
  | (logs, Except.error m) =>
    (fetchLog :: logs ++ [LogLine.err ("Error fetching or processing tweet " ++ tweetId ++
        " from API: " ++ m)],
      Except.error ("Failed to process tweet " ++ tweetId ++ ": " ++ m))

/-- The candidate URL an attachment offers under one of the spec's selection
rules: the given field of an attachment of the given type, provided the field is
present and non-empty. -/
def candOf (ty : String) (field : MediaAttachment → Option String)
    (m : MediaAttachment) : Option String :=
  if m.type = ty then
    match field m with
    | some u => if u = "" then none else some u
    | none => none
  else none

/-- Image selection as the spec words it: the first rule-1 candidate, else the
first rule-2 candidate, else the first rule-3 candidate, else none — where the
first candidate under a rule is the head of the list of that rule's candidates
in API-returned order. -/
def specImageSelect (ms : List MediaAttachment) : Option String :=
  match (ms.filterMap (candOf "photo" MediaAttachment.url)).head? with
  | some u => some u
  | none =>
    match (ms.filterMap (candOf "photo" MediaAttachment.preview_image_url)).head? with
    | some u => some u
    | none => (ms.filterMap (candOf "video" MediaAttachment.preview_image_url)).head?

/-- Demo attachment for the witness: a photo carrying both a direct URL and a
preview URL. -/
def demoPhotoBoth : MediaAttachment :=
  ⟨"photo", some "https://pbs.example/direct.jpg", some "https://pbs.example/preview.jpg"⟩

/-- Character-level containment of `t` inside `s` (the meaning of JavaScript's
`String.prototype.includes`). -/
def strContains (s t : String) : Prop := t.data <:+: s.data

instance (s t : String) : Decidable (strContains s t) :=
  List.decidableInfix t.data s.data

/-- The message of a thrown error, if the computation failed. -/
def exceptErrMsg {α : Type} : Except String α → Option String
  | Except.error m => some m
  | Except.ok _ => none

/-- Whether the computation failed. -/
def exceptIsError {α : Type} : Except String α → Bool
  | Except.error _ => true
  | Except.ok _ => false

/-- The failure message of a resolution run, if it threw. -/
def fetchErrMsg (tweetId : String) (resp : TweetResponse) : Option String :=
  exceptErrMsg (fetchTweetData tweetId resp).2

/-- The optional string is present and contains `t`. -/
def optContains : Option String → String → Prop
  | some m, t => strContains m t
  | none, _ => False

/-- Tweet-lookup response for the C4 witness: a non-empty `errors` array whose
first entry carries a detail. -/
def demoErrorResp : TweetResponse :=
  ⟨some [⟨some "boom", "Not Found Error"⟩], none, none⟩

/-- Tweet-lookup response for the C5 witness: tweet data present, no media. -/
def demoNoMediaResp : TweetResponse := ⟨none, some ⟨"hello"⟩, none⟩

/-- Attachment and response for the C6 witness: a single video with a preview. -/
def demoVideoOnly : MediaAttachment := ⟨"video", none, some "https://pbs.example/v1.jpg"⟩

/-- Tweet-lookup response for the C6 witness. -/
def demoVideoResp : TweetResponse := ⟨none, some ⟨"vid tweet"⟩, some [demoVideoOnly]⟩

/-- The three reference image URLs baked into the schema-validated script. -/
def referenceImageUrls : List String :=
  ["https://raw.githubusercontent.com/KuphJr/proof-of-hat/main/tunnl-hat-front.jpg",
   "https://raw.githubusercontent.com/KuphJr/proof-of-hat/main/tunnl-hat-side-1.jpg",
   "https://raw.githubusercontent.com/KuphJr/proof-of-hat/main/tunnl-hat-side-2.jpg"]

/-- The system instruction of the schema-validated variant. -/
def systemPrompt : String :=
  "You are a vision model that analyzes images to determine if they contain a black baseball hat with a \"tunnl\" logo on it anywhere within the image."

/-- The user instruction of the schema-validated variant. -/
def userPrompt : String :=
  "The first 3 images are reference photos of the black baseball cap with the white \"tunnl\" logo. The last image is the image you are analyzing.\nPlease analyze the final image and return your answer in this exact JSON format:\n\x7b\n  \"result\": true if the image contains a black baseball hat with a \"tunnl\" logo on it. false if you cannot see the hat with the logo anywhere in the image.\n  \"reasoning\": \"Short explanation of why or why not you think the image contains a black baseball hat with a \"tunnl\" logo on it.\"\n\x7d\n\nOnly output the JSON object."

/-- The question text of the free-text variant. -/
def question : String :=
  "Does this picture contain a black baseball hat with a \"tunnl\" logo on it?\nI have provided you with 3 example images of the hat with the Tunnl logo on it named \"tunnl-hat-front.jpg\", \"tunnl-hat-side-1.jpg\", and \"tunnl-hat-side-2.jpg\".\nThe image you are analyzing is named \"posted-image.jpg\".\nIf you cannot see the hat with the logo anywhere in the image, respond with \"no\".\nIf you can see the hat with the logo anywhere in the image, respond with \"yes\".\n"

/-- One content item of a chat message: text or an image URL. -/
inductive ContentItem
  | text (s : String)
  | imageUrl (url : String)
deriving Repr, DecidableEq

/-- A chat message: a system instruction or a user content list. -/
inductive ChatMessage
  | system (content : String)
  | user (content : List ContentItem)
deriving Repr, DecidableEq

/-- A request to the inference API: model name, sampling temperature, message
list, and the name of the schema bound to the response format. -/
structure ChatRequest where
  model : String
  temperature : Nat
  messages : List ChatMessage
  responseFormatName : String
deriving Repr, DecidableEq

/-- The request built by the schema-validated `askOpenAIAboutImage`: the system
prompt, then one user message holding the user prompt, the three reference
image URLs, and the image to analyze last; `temperature` pinned to 0 and the
response format bound to the `response` schema. -/
def buildSchemaRequest (imageUrl : String) : ChatRequest :=
  let referenceImageMessages := referenceImageUrls.map (fun u => ContentItem.imageUrl u)
  let imageToAnalyzeMessage := ContentItem.imageUrl imageUrl
  ⟨"gpt-4o", 0,
    [ChatMessage.system systemPrompt,
     ChatMessage.user (ContentItem.text userPrompt :: referenceImageMessages
        ++ [imageToAnalyzeMessage])],
    "response"⟩

/-- The request built by the free-text `askOpenAIAboutImage`: a single user
message holding only the question text; the `imageUrl` argument is accepted but
never placed into the request. -/
def buildFreeTextRequest (imageUrl : String) (question : String) : ChatRequest :=
  ⟨"gpt-4o", 0, [ChatMessage.user [ContentItem.text question]], "response"⟩

/-- All image URLs appearing in a content list, in order. -/
def contentImageUrls : List ContentItem → List String
  | [] => []
  | ContentItem.text _ :: rest => contentImageUrls rest
  | ContentItem.imageUrl u :: rest => u :: contentImageUrls rest

/-- All image URLs appearing in a message. -/
def messageImageUrls : ChatMessage → List String
  | ChatMessage.system _ => []
  | ChatMessage.user items => contentImageUrls items

/-- All image URLs appearing anywhere in a request. -/
def requestImageUrls (r : ChatRequest) : List String :=
  r.messages.foldr (fun m acc => messageImageUrls m ++ acc) []

/-- The content items of the single user message of the schema request. -/
def schemaUserItems (imageUrl : String) : List ContentItem :=
  match (buildSchemaRequest imageUrl).messages with
  | [ChatMessage.system _, ChatMessage.user items] => items
  | _ => []

/-- The schema-validated verdict: `result` and `reasoning`. -/
structure VerificationResult where
  result : Bool
  reasoning : String
deriving Repr, DecidableEq

/-- `choices[i].message` of an inference response, with its schema-parsed
content (absent when the API produced none). -/
structure ChatChoiceMessage where
  parsed : Option VerificationResult
deriving Repr, DecidableEq

/-- One choice of an inference response; `message` is read with optional
chaining in the source, so it is optional here. -/
structure ChatChoice where
  message : Option ChatChoiceMessage
deriving Repr, DecidableEq

/-- An inference-API response: a list of choices. -/
structure ChatResponse where
  choices : List ChatChoice
deriving Repr, DecidableEq

/-- The read `result.choices[0]?.message?.parsed` with optional chaining. -/
def extractParsed (r : ChatResponse) : Option VerificationResult :=
  match r.choices.head? with
  | some c =>
    match c.message with
    | some m => m.parsed
    | none => none
  | none => none

/-- The schema-validated `askOpenAIAboutImage`, as a function of the call's
outcome: on success it returns the first choice's parsed content (possibly
absent); a thrown error is wrapped with context and re-thrown. -/
def askOpenAIAboutImage (imageUrl : String) (outcome : Except String ChatResponse) :
    Except String (Option VerificationResult) :=
  match outcome with
  | Except.ok r => Except.ok (extractParsed r)
  | Except.error e =>
    Except.error ("Failed to get response from OpenAI about the image. " ++ e)

/-- Keywords treated as a yes by the free-text variant. -/
def positiveKeywords : List String := ["yes", "it does", "shows a black baseball hat"]

/-- Keywords treated as a no by the free-text variant. -/
def negativeKeywords : List String := ["no", "it does not", "does not show"]

/-- ASCII lower-casing, the behavior of `toLowerCase` on the strings involved. -/
def jsToLower (s : String) : String := String.mk (s.data.map Char.toLower)

/-- JavaScript `s.includes(t)` as a boolean. -/
def jsIncludes (s t : String) : Bool := decide (t.data <:+: s.data)

/-- Outcome of the free-text keyword matching. -/
inductive FreeTextVerdict
  | determined (result : Bool)
  | ambiguousAssumedFalse
deriving Repr, DecidableEq

/-- The keyword matching over the lower-cased response in the free-text
variant's `main`: positive keywords are checked first, then negative keywords;
with no match the code logs and assumes false (the ambiguous case). -/
def classifyResponse (response : String) : FreeTextVerdict :=
  let responseLower := jsToLower response
  if positiveKeywords.any (fun k => jsIncludes responseLower k) then
    FreeTextVerdict.determined true
  else if negativeKeywords.any (fun k => jsIncludes responseLower k) then
    FreeTextVerdict.determined false
  else
    FreeTextVerdict.ambiguousAssumedFalse

/-- Environment configuration: the two required secrets. -/
structure Config where
  openaiKey : Option String
  twitterToken : Option String
deriving Repr, DecidableEq

/-- Tweet id hard-coded in the schema-validated script. -/
def SCHEMA_TWEET_ID : String := "1921299860000518230"

/-- Tweet id hard-coded in the free-text script. -/
def FREETEXT_TWEET_ID : String := "1921316529062265045"

/-- The free-text `askOpenAIAboutImage`: returns the call's content (possibly
null); a thrown error is wrapped with context and re-thrown. -/
def askOpenAIFreeText (imageUrl question : String)
    (outcome : Except String (Option String)) : Except String (Option String) :=
  match outcome with
  | Except.ok content => Except.ok content
  | Except.error e =>
    Except.error ("Failed to get response from OpenAI about the image. " ++ e)

/-- What the free-text `main` ends with; every branch returns normally because
the whole body sits in a try/catch whose catch only logs. -/
inductive FreeTextOutcome
  | verdict (result : Bool)
  | ambiguousAssumedFalse
  | noResponse
  | errorLogged (msg : String)
deriving Repr, DecidableEq

/-- The free-text variant's `main`. -/
def freeTextMain (resp : TweetResponse) (api : Except String (Option String)) :
    FreeTextOutcome :=
  match (fetchTweetData FREETEXT_TWEET_ID resp).2 with
  | Except.error m => FreeTextOutcome.errorLogged m
  | Except.ok r =>
    match r.imageUrl with
    | none => FreeTextOutcome.errorLogged
        ("No image URL found for Tweet ID: " ++ FREETEXT_TWEET_ID ++ ".")
    | some u =>
      match askOpenAIFreeText u question api with
      | Except.error m => FreeTextOutcome.errorLogged m
      | Except.ok none => FreeTextOutcome.noResponse
      | Except.ok (some s) =>
        match classifyResponse s with
        | FreeTextVerdict.determined b => FreeTextOutcome.verdict b
        | FreeTextVerdict.ambiguousAssumedFalse => FreeTextOutcome.ambiguousAssumedFalse

/-- Exit code of the schema-validated process: 1 when a secret is missing, 1
when `main` catches an error (resolution failure, missing image URL, or a
failed inference call), else 0. -/
def runSchemaVariant (cfg : Config) (resp : TweetResponse)
    (api : Except String ChatResponse) : Nat :=
  if truthy cfg.openaiKey = false then 1
  else if truthy cfg.twitterToken = false then 1
  else
    match (fetchTweetData SCHEMA_TWEET_ID resp).2 with
    | Except.error _ => 1
    | Except.ok r =>
      match r.imageUrl with
      | none => 1
      | some u =>
        match askOpenAIAboutImage u api with
        | Except.error _ => 1
        | Except.ok _ => 0

/-- Exit code of the free-text process: 1 when a secret is missing; afterwards
`main` catches every error internally and returns normally, so the process
always exits 0. -/
def runFreeTextVariant (cfg : Config) (resp : TweetResponse)
    (api : Except String (Option String)) : Nat :=
  if truthy cfg.openaiKey = false then 1
  else if truthy cfg.twitterToken = false then 1
  else
    match freeTextMain resp api with
    | _ => 0

/-- Full configuration with both secrets present. -/
def demoConfig : Config := ⟨some "sk-demo", some "bearer-demo"⟩

/-- Configuration missing the inference key, for the C2 witness. -/
def demoConfigNoKey : Config := ⟨none, some "bearer-demo"⟩

/-- Lookup response reporting an unresolved tweet, for the C2 counterexample. -/
def demoNotFoundResp : TweetResponse :=
  ⟨some [⟨some "Could not find tweet with id: [1921316529062265045].", "Not Found Error"⟩],
    none, none⟩

theorem truthy_iff (o : Option String) : truthy o = true ↔ ∃ u, o = some u ∧ u ≠ "" := by
  cases o with
  | none => simp [truthy]
  | some s => simp [truthy]

theorem candOf_eq (ty : String) (field : MediaAttachment → Option String)
    (m : MediaAttachment) :
    candOf ty field m =
      if (m.type == ty && truthy (field m)) = true then field m else none := by
  unfold candOf
  cases h : field m with
  | none => simp [h, truthy]
  | some u =>
    by_cases hty : m.type = ty
    · by_cases hu : u = "" <;> simp [h, hty, hu, truthy]
    · simp [h, hty]

theorem head_filterMap_candOf (ty : String) (field : MediaAttachment → Option String)
    (ms : List MediaAttachment) :
    (ms.filterMap (candOf ty field)).head? =
      (ms.find? (fun m => m.type == ty && truthy (field m))).bind field := by
  induction ms with
  | nil => rfl
  | cons m t ih =>
    rw [List.filterMap_cons, candOf_eq]
    by_cases hp : (m.type == ty && truthy (field m)) = true
    · rw [if_pos hp, List.find?_cons_of_pos t hp]
      have htr : truthy (field m) = true := (Bool.and_eq_true _ _ |>.mp hp).2
      obtain ⟨u, hu, _⟩ := (truthy_iff (field m)).mp htr
      simp [hu]
    · rw [if_neg hp, List.find?_cons_of_neg t hp]
      simpa using ih

theorem selectImageUrl_some (ms : List MediaAttachment) :
    selectImageUrl (some ms) =
      match ms.find? (fun m => m.type == "photo" && truthy m.url) with
      | some pm => pm.url
      | none =>
        match ms.find? (fun m => m.type == "photo" && truthy m.preview_image_url) with
        | some pm => pm.preview_image_url
        | none =>
          match ms.find? (fun m => m.type == "video" && truthy m.preview_image_url) with
          | some vm => vm.preview_image_url
          | none => none := by
  cases ms with
  | nil => rfl
  | cons a t =>
    rcases h1 : (a :: t).find? (fun m => m.type == "photo" && truthy m.url) with _ | pm
    · rcases h2 : (a :: t).find? (fun m => m.type == "photo" && truthy m.preview_image_url)
        with _ | pm2
      · rcases h3 : (a :: t).find? (fun m => m.type == "video" && truthy m.preview_image_url)
          with _ | vm
        · simp [selectImageUrl, h1, h2, h3]
        · simp [selectImageUrl, h1, h2, h3]
      · simp [selectImageUrl, h1, h2]
    · simp [selectImageUrl, h1]

/-- C1: the resolver's image-URL selection follows the exact four-rule
precedence, first match winning in API-returned order (stated as equality with
the spec-worded selection `specImageSelect`); in particular a media list
containing a photo with both a direct URL and a preview URL yields that photo's
direct URL, and a photo-less list containing a video with a preview URL yields
a non-empty video preview URL. -/
theorem imageUrl_selection_precedence (ms : List MediaAttachment) :
    selectImageUrl (some ms) = specImageSelect ms
    ∧ ((∃ m ∈ ms, m.type = "photo" ∧ truthy m.url = true
          ∧ truthy m.preview_image_url = true) →
        ∃ m ∈ ms, m.type = "photo" ∧ truthy m.url = true
          ∧ selectImageUrl (some ms) = m.url)
    ∧ ((∀ m ∈ ms, m.type ≠ "photo") →
        (∃ m ∈ ms, m.type = "video" ∧ truthy m.preview_image_url = true) →
        ∃ u, selectImageUrl (some ms) = some u ∧ u ≠ "" ∧
          ∃ m ∈ ms, m.type = "video" ∧ m.preview_image_url = some u) := by
  refine ⟨?_, ?_, ?_⟩
  · rw [selectImageUrl_some]
    unfold specImageSelect
    rw [head_filterMap_candOf, head_filterMap_candOf, head_filterMap_candOf]
    rcases h1 : ms.find? (fun m => m.type == "photo" && truthy m.url) with _ | pm
    · rcases h2 : ms.find? (fun m => m.type == "photo" && truthy m.preview_image_url)
        with _ | pm2
      · rcases h3 : ms.find? (fun m => m.type == "video" && truthy m.preview_image_url)
          with _ | vm
        · rw [h1, h2, h3]
          rfl
        · have hpred := List.find?_some h3
          simp only [Bool.and_eq_true] at hpred
          obtain ⟨u, hu, -⟩ := (truthy_iff _).mp hpred.2
          rw [h1, h2, h3]
          simp [hu]
      · have hpred := List.find?_some h2
        simp only [Bool.and_eq_true] at hpred
        obtain ⟨u, hu, -⟩ := (truthy_iff _).mp hpred.2
        rw [h1, h2]
        simp [hu]
    · have hpred := List.find?_some h1
      simp only [Bool.and_eq_true] at hpred
      obtain ⟨u, hu, -⟩ := (truthy_iff _).mp hpred.2
      rw [h1]
      simp [hu]
  · rintro ⟨m, hm, hty, hurl, -⟩
    have hfind : (ms.find? (fun m => m.type == "photo" && truthy m.url)).isSome := by
      rw [List.find?_isSome]
      exact ⟨m, hm, by simp [hty, hurl]⟩
    obtain ⟨pm, h1⟩ := Option.isSome_iff_exists.mp hfind
    have hpred := List.find?_some h1
    simp only [Bool.and_eq_true, beq_iff_eq] at hpred
    have hpm_ty : pm.type = "photo" := hpred.1
    have hpm_url : truthy pm.url = true := hpred.2
    refine ⟨pm, List.mem_of_find?_eq_some h1, hpm_ty, hpm_url, ?_⟩
    rw [selectImageUrl_some, h1]
  · rintro hnophoto ⟨m, hm, hty, hprev⟩
    have h1 : ms.find? (fun m => m.type == "photo" && truthy m.url) = none := by
      rw [List.find?_eq_none]
      intro x hx
      have hne := hnophoto x hx
      simp [Bool.and_eq_true, beq_iff_eq, hne]
    have h2 : ms.find? (fun m => m.type == "photo" && truthy m.preview_image_url)
        = none := by
      rw [List.find?_eq_none]
      intro x hx
      have hne := hnophoto x hx
      simp [Bool.and_eq_true, beq_iff_eq, hne]
    have hfind :
        (ms.find? (fun m => m.type == "video" && truthy m.preview_image_url)).isSome := by
      rw [List.find?_isSome]
      exact ⟨m, hm, by simp [hty, hprev]⟩
    obtain ⟨vm, h3⟩ := Option.isSome_iff_exists.mp hfind
    have hpred := List.find?_some h3
    simp only [Bool.and_eq_true, beq_iff_eq] at hpred
    have hvm_ty : vm.type = "video" := hpred.1
    have hvm_prev : truthy vm.preview_image_url = true := hpred.2
    obtain ⟨u, hu, hne⟩ := (truthy_iff _).mp hvm_prev
    refine ⟨u, ?_, hne, vm, List.mem_of_find?_eq_some h3, hvm_ty, hu⟩
    rw [selectImageUrl_some, h1, h2, h3]
    simpa using hu

/-- Witness for C1 at a one-element media list holding a photo with both URLs:
the selection agrees with the spec-worded selection and picks the photo's
direct URL. -/
theorem imageUrl_selection_precedence_witness :
    selectImageUrl (some [demoPhotoBoth]) = specImageSelect [demoPhotoBoth]
    ∧ ∃ m ∈ [demoPhotoBoth], m.type = "photo" ∧ truthy m.url = true
        ∧ selectImageUrl (some [demoPhotoBoth]) = m.url :=
  ⟨(imageUrl_selection_precedence [demoPhotoBoth]).1,
    (imageUrl_selection_precedence [demoPhotoBoth]).2.1
      (by decide)⟩

theorem strContains_append_right (x y d : String) : strContains (x ++ (y ++ d)) d := by
  refine ⟨x.data ++ y.data, [], ?_⟩
  show x.data ++ y.data ++ d.data ++ [] = (x ++ (y ++ d)).data
  simp [List.append_assoc]

theorem strContains_empty (s : String) : strContains s "" := ⟨[], s.data, by simp⟩

/-- C4: a tweet-lookup response with a non-empty `errors` array makes resolution
fail, and the thrown error's message contains the first entry's detail — or its
title when the detail is absent or empty (JavaScript `detail || title`).  The
second conjunct gives containment of the detail itself whenever it is present. -/
theorem resolution_error_uses_first_detail (tweetId : String) (resp : TweetResponse)
    (e : TweetError) (rest : List TweetError)
    (h : resp.errors = some (e :: rest)) :
    optContains (fetchErrMsg tweetId resp) (jsOr e.detail e.title)
    ∧ optContains (fetchErrMsg tweetId resp) (e.detail.getD "") := by
  have hmsg : fetchErrMsg tweetId resp =
      some ("Failed to process tweet " ++ tweetId ++ ": " ++
        ("Failed to fetch tweet: " ++ jsOr e.detail e.title)) := by
    unfold fetchErrMsg fetchTweetData
    rw [h]
    rfl
  rw [hmsg]
  constructor
  · exact strContains_append_right _ _ _
  · rcases hd : e.detail with _ | d
    · exact strContains_empty _
    · by_cases hde : d = ""
      · subst hde
        exact strContains_empty _
      · have hj : jsOr (some d) e.title = d := by simp [jsOr, hde]
        rw [hj]
        exact strContains_append_right _ _ _

/-- Witness for C4: a lookup response whose first error has detail `"boom"`
makes resolution fail with a message containing `"boom"`. -/
theorem resolution_error_uses_first_detail_witness :
    optContains (fetchErrMsg "42" demoErrorResp) (jsOr (some "boom") "Not Found Error")
    ∧ optContains (fetchErrMsg "42" demoErrorResp) ((some "boom").getD "") :=
  resolution_error_uses_first_detail "42" demoErrorResp
    ⟨some "boom", "Not Found Error"⟩ [] rfl

/-- C5: when the tweet data is present but the media list yields no candidate
under the selection rules (empty, absent, or without usable photo/video URLs),
the resolver returns successfully with `imageUrl` absent and logs a warning —
it does not throw. -/
theorem no_image_returns_ok_with_warning (tweetId : String) (resp : TweetResponse)
    (d : TweetData)
    (herr : resp.errors = none ∨ resp.errors = some [])
    (hdata : resp.data = some d)
    (hsel : selectImageUrl resp.includes_media = none) :
    (fetchTweetData tweetId resp).2 = Except.ok ⟨none, some d.text⟩
    ∧ LogLine.warn ("Tweet " ++ tweetId ++
        " does not appear to contain a usable image URL (photo or video thumbnail).") ∈
      (fetchTweetData tweetId resp).1 := by
  rcases herr with herr | herr <;>
    exact ⟨by simp [fetchTweetData, herr, hdata, hsel],
      by simp [fetchTweetData, herr, hdata, hsel]⟩

/-- Witness for C5: a response with tweet text and no media resolves to an
absent image URL with a warning logged. -/
theorem no_image_returns_ok_with_warning_witness :
    (fetchTweetData "7" demoNoMediaResp).2
        = Except.ok ⟨none, some (TweetData.mk "hello").text⟩
    ∧ LogLine.warn ("Tweet " ++ "7" ++
        " does not appear to contain a usable image URL (photo or video thumbnail).") ∈
      (fetchTweetData "7" demoNoMediaResp).1 :=
  no_image_returns_ok_with_warning "7" demoNoMediaResp ⟨"hello"⟩ (Or.inl rfl) rfl rfl

theorem fetchTweetData_ok_shape (tweetId : String) (resp : TweetResponse)
    (r : ResolvedImage) (h : (fetchTweetData tweetId resp).2 = Except.ok r) :
    ∃ d, resp.data = some d ∧ r = ⟨selectImageUrl resp.includes_media, some d.text⟩ := by
  rcases he : resp.errors with _ | errs
  · rcases hd : resp.data with _ | d
    · simp [fetchTweetData, he, hd] at h
    · refine ⟨d, rfl, ?_⟩
      simp [fetchTweetData, he, hd] at h
      exact h.symm
  · cases errs with
    | nil =>
      rcases hd : resp.data with _ | d
      · simp [fetchTweetData, he, hd] at h
      · refine ⟨d, rfl, ?_⟩
        simp [fetchTweetData, he, hd] at h
        exact h.symm
    | cons e rest => simp [fetchTweetData, he] at h

/-- C6: whenever resolution succeeds with a present `imageUrl`, that URL is a
non-empty string and is exactly one of the URL fields (a photo's direct `url`,
a photo's `preview_image_url`, or a video's `preview_image_url`) of some
attachment of the API-returned media list — never a synthesized value. -/
theorem imageUrl_invariant (tweetId : String) (resp : TweetResponse)
    (r : ResolvedImage) (u : String)
    (hok : (fetchTweetData tweetId resp).2 = Except.ok r)
    (hu : r.imageUrl = some u) :
    u ≠ "" ∧ ∃ ms, resp.includes_media = some ms ∧ ∃ m ∈ ms,
      (m.type = "photo" ∧ m.url = some u) ∨
      (m.type = "photo" ∧ m.preview_image_url = some u) ∨
      (m.type = "video" ∧ m.preview_image_url = some u) := by
  obtain ⟨d, -, hr⟩ := fetchTweetData_ok_shape tweetId resp r hok
  rw [hr] at hu
  replace hu : selectImageUrl resp.includes_media = some u := hu
  rcases hmedia : resp.includes_media with _ | ms
  · rw [hmedia] at hu
    simp [selectImageUrl] at hu
  · rw [hmedia, selectImageUrl_some] at hu
    rcases h1 : ms.find? (fun m => m.type == "photo" && truthy m.url) with _ | pm
    · rcases h2 : ms.find? (fun m => m.type == "photo" && truthy m.preview_image_url)
        with _ | pm2
      · rcases h3 : ms.find? (fun m => m.type == "video" && truthy m.preview_image_url)
          with _ | vm
        · rw [h1, h2, h3] at hu
          simp at hu
        · rw [h1, h2, h3] at hu
          have hu' : vm.preview_image_url = some u := by simpa using hu
          have hpred := List.find?_some h3
          simp only [Bool.and_eq_true, beq_iff_eq] at hpred
          have hne : u ≠ "" := by
            have h2' := hpred.2
            rw [hu'] at h2'
            simpa [truthy] using h2'
          exact ⟨hne, ms, rfl, vm, List.mem_of_find?_eq_some h3,
            Or.inr (Or.inr ⟨hpred.1, hu'⟩)⟩
      · rw [h1, h2] at hu
        have hu' : pm2.preview_image_url = some u := by simpa using hu
        have hpred := List.find?_some h2
        simp only [Bool.and_eq_true, beq_iff_eq] at hpred
        have hne : u ≠ "" := by
          have h2' := hpred.2
          rw [hu'] at h2'
          simpa [truthy] using h2'
        exact ⟨hne, ms, rfl, pm2, List.mem_of_find?_eq_some h2,
          Or.inr (Or.inl ⟨hpred.1, hu'⟩)⟩
    · rw [h1] at hu
      have hu' : pm.url = some u := by simpa using hu
      have hpred := List.find?_some h1
      simp only [Bool.and_eq_true, beq_iff_eq] at hpred
      have hne : u ≠ "" := by
        have h2' := hpred.2
        rw [hu'] at h2'
        simpa [truthy] using h2'
      exact ⟨hne, ms, rfl, pm, List.mem_of_find?_eq_some h1,
        Or.inl ⟨hpred.1, hu'⟩⟩

/-- Witness for C6: a resolved video-preview URL is non-empty and comes from
the media list. -/
theorem imageUrl_invariant_witness :
    ("https://pbs.example/v1.jpg" : String) ≠ ""
    ∧ ∃ ms, demoVideoResp.includes_media = some ms ∧ ∃ m ∈ ms,
        (m.type = "photo" ∧ m.url = some "https://pbs.example/v1.jpg") ∨
        (m.type = "photo" ∧ m.preview_image_url = some "https://pbs.example/v1.jpg") ∨
        (m.type = "video" ∧ m.preview_image_url = some "https://pbs.example/v1.jpg") :=
  imageUrl_invariant "9" demoVideoResp
    ⟨some "https://pbs.example/v1.jpg", some "vid tweet"⟩
    "https://pbs.example/v1.jpg" (by rfl) rfl

/-- C2 counterexample: with both secrets present and a lookup response whose
`errors` array marks the tweet unresolved, the free-text variant's process
exits 0, not 1 — its `main` catches the resolution error, logs, and returns
normally. -/
theorem freeText_exit_zero_on_unresolved_tweet :
    exceptIsError (fetchTweetData FREETEXT_TWEET_ID demoNotFoundResp).2 = true
    ∧ runFreeTextVariant demoConfig demoNotFoundResp (Except.ok none) = 0
    ∧ runFreeTextVariant demoConfig demoNotFoundResp (Except.ok none) ≠ 1 :=
  ⟨rfl, rfl, by decide⟩

/-- C2 (amended): with a missing secret both variants exit 1; with both secrets
present the free-text variant always exits 0 (its `main` catches every error
and the ambiguous case merely logs), while the schema-validated variant exits 1
exactly on a resolution error, a missing image URL, or a failed inference call,
and exits 0 on normal completion. -/
theorem process_exit_codes (cfg : Config) (resp : TweetResponse)
    (apiS : Except String ChatResponse) (apiF : Except String (Option String)) :
    ((truthy cfg.openaiKey = false ∨ truthy cfg.twitterToken = false) →
      runSchemaVariant cfg resp apiS = 1 ∧ runFreeTextVariant cfg resp apiF = 1)
    ∧ (truthy cfg.openaiKey = true → truthy cfg.twitterToken = true →
        runFreeTextVariant cfg resp apiF = 0
        ∧ (exceptIsError (fetchTweetData SCHEMA_TWEET_ID resp).2 = true →
            runSchemaVariant cfg resp apiS = 1)
        ∧ (∀ r, (fetchTweetData SCHEMA_TWEET_ID resp).2 = Except.ok r →
            r.imageUrl = none → runSchemaVariant cfg resp apiS = 1)
        ∧ (∀ e, apiS = Except.error e → runSchemaVariant cfg resp apiS = 1)
        ∧ (∀ r u resp2, (fetchTweetData SCHEMA_TWEET_ID resp).2 = Except.ok r →
            r.imageUrl = some u → apiS = Except.ok resp2 →
            runSchemaVariant cfg resp apiS = 0)) := by
  constructor
  · rintro (hk | ht)
    · exact ⟨by simp [runSchemaVariant, hk], by simp [runFreeTextVariant, hk]⟩
    · rcases hk : truthy cfg.openaiKey with _ | _
      · exact ⟨by simp [runSchemaVariant, hk], by simp [runFreeTextVariant, hk]⟩
      · exact ⟨by simp [runSchemaVariant, hk, ht], by simp [runFreeTextVariant, hk, ht]⟩
  · intro hk ht
    refine ⟨by simp [runFreeTextVariant, hk, ht], ?_, ?_, ?_, ?_⟩
    · intro herr
      rcases hfd : (fetchTweetData SCHEMA_TWEET_ID resp).2 with m | r
      · simp [runSchemaVariant, hk, ht, hfd]
      · rw [hfd] at herr
        simp [exceptIsError] at herr
    · intro r hfd hnone
      simp [runSchemaVariant, hk, ht, hfd, hnone]
    · intro e hapi
      rcases hfd : (fetchTweetData SCHEMA_TWEET_ID resp).2 with m | r
      · simp [runSchemaVariant, hk, ht, hfd]
      · rcases hiu : r.imageUrl with _ | u
        · simp [runSchemaVariant, hk, ht, hfd, hiu]
        · simp [runSchemaVariant, hk, ht, hfd, hiu, hapi, askOpenAIAboutImage]
    · intro r u resp2 hfd hiu hapi
      simp [runSchemaVariant, hk, ht, hfd, hiu, hapi, askOpenAIAboutImage]

/-- Witness for C2 (amended): with the inference key missing, both processes
exit 1. -/
theorem process_exit_codes_witness :
    runSchemaVariant demoConfigNoKey demoNotFoundResp (Except.error "down") = 1
    ∧ runFreeTextVariant demoConfigNoKey demoNotFoundResp (Except.ok none) = 1 :=
  (process_exit_codes demoConfigNoKey demoNotFoundResp (Except.error "down")
    (Except.ok none)).1 (Or.inl rfl)

/-- C3 counterexample: the lower-cased response "it does not" contains the
negative keyword "it does not", yet the verdict is true, because the positive
keyword "it does" is a substring of it and positive keywords are checked
first. -/
theorem keyword_matching_counterexample :
    jsIncludes (jsToLower "It does not") "it does not" = true
    ∧ "it does not" ∈ negativeKeywords
    ∧ classifyResponse "It does not" = FreeTextVerdict.determined true :=
  ⟨by decide, by decide, by decide⟩

/-- C3 (amended): in the free-text variant, a lower-cased response containing a
positive keyword yields verdict true; one containing a negative keyword but no
positive keyword yields verdict false; and one containing no keyword from
either list yields the explicit ambiguous-assume-false outcome rather than a
failure.  (The claim's unconditional negative-keyword clause fails because
positive keywords are checked first and "it does" is a substring of
"it does not".) -/
theorem keyword_matching (response : String) :
    ((∃ k ∈ positiveKeywords, strContains (jsToLower response) k) →
      classifyResponse response = FreeTextVerdict.determined true)
    ∧ ((∀ k ∈ positiveKeywords, ¬ strContains (jsToLower response) k) →
       (∃ k ∈ negativeKeywords, strContains (jsToLower response) k) →
      classifyResponse response = FreeTextVerdict.determined false)
    ∧ ((∀ k ∈ positiveKeywords, ¬ strContains (jsToLower response) k) →
       (∀ k ∈ negativeKeywords, ¬ strContains (jsToLower response) k) →
      classifyResponse response = FreeTextVerdict.ambiguousAssumedFalse) := by
  have hb : ∀ (l : List String) (s : String),
      l.any (fun k => jsIncludes s k) = true ↔ ∃ k ∈ l, strContains s k := by
    intro l s
    rw [List.any_eq_true]
    constructor
    · rintro ⟨k, hk, hkk⟩
      exact ⟨k, hk, of_decide_eq_true hkk⟩
    · rintro ⟨k, hk, hkk⟩
      exact ⟨k, hk, decide_eq_true hkk⟩
  have hfalse : ∀ (l : List String),
      (∀ k ∈ l, ¬ strContains (jsToLower response) k) →
      l.any (fun k => jsIncludes (jsToLower response) k) = false := by
    intro l hno
    cases hc : l.any (fun k => jsIncludes (jsToLower response) k)
    · rfl
    · obtain ⟨k, hk, hkk⟩ := (hb _ _).mp hc
      exact absurd hkk (hno k hk)
  refine ⟨?_, ?_, ?_⟩
  · intro hpos
    have hp := (hb _ _).mpr hpos
    simp [classifyResponse, hp]
  · intro hnopos hneg
    have hnp := hfalse _ hnopos
    have hn := (hb _ _).mpr hneg
    simp [classifyResponse, hnp, hn]
  · intro hnopos hnoneg
    have hnp := hfalse _ hnopos
    have hnn := hfalse _ hnoneg
    simp [classifyResponse, hnp, hnn]

/-- Witness for C3 (amended): a response containing "yes" classifies as a true
verdict. -/
theorem keyword_matching_witness :
    classifyResponse "Yes, it is!" = FreeTextVerdict.determined true :=
  (keyword_matching "Yes, it is!").1 (by decide)

/-- C7: the schema-validated verifier's single request pins `temperature` to 0
and carries exactly a system message with the detection instruction and one
user message whose content is the output-contract text, then the three
reference image URLs in order, and the candidate image URL as the last visual
input. -/
theorem schema_request_shape (imageUrl : String) :
    (buildSchemaRequest imageUrl).temperature = 0
    ∧ (buildSchemaRequest imageUrl).messages =
        [ChatMessage.system systemPrompt, ChatMessage.user (schemaUserItems imageUrl)]
    ∧ (schemaUserItems imageUrl).head? = some (ContentItem.text userPrompt)
    ∧ (schemaUserItems imageUrl).drop 1 =
        referenceImageUrls.map ContentItem.imageUrl ++ [ContentItem.imageUrl imageUrl]
    ∧ referenceImageUrls.length = 3
    ∧ (schemaUserItems imageUrl).getLast? = some (ContentItem.imageUrl imageUrl) :=
  ⟨rfl, rfl, rfl, rfl, rfl, rfl⟩

/-- C8: when the call succeeds and the first choice's message carries parsed
content satisfying the two-field schema, the schema-validated verifier returns
exactly that parsed object, unmodified. -/
theorem schema_parsed_returned_unmodified (imageUrl : String) (resp : ChatResponse)
    (c : ChatChoice) (m : ChatChoiceMessage) (v : VerificationResult)
    (hc : resp.choices.head? = some c) (hm : c.message = some m)
    (hp : m.parsed = some v) :
    askOpenAIAboutImage imageUrl (Except.ok resp) = Except.ok (some v) := by
  simp [askOpenAIAboutImage, extractParsed, hc, hm, hp]

/-- Witness for C8 at the parsed object with result true and reasoning "hat
visible on subject's head". -/
theorem schema_parsed_returned_unmodified_witness :
    askOpenAIAboutImage "https://pbs.example/c8.jpg"
        (Except.ok ⟨[⟨some ⟨some ⟨true, "hat visible on subject's head"⟩⟩⟩]⟩)
      = Except.ok (some ⟨true, "hat visible on subject's head"⟩) :=
  schema_parsed_returned_unmodified "https://pbs.example/c8.jpg"
    ⟨[⟨some ⟨some ⟨true, "hat visible on subject's head"⟩⟩⟩]⟩
    ⟨some ⟨some ⟨true, "hat visible on subject's head"⟩⟩⟩
    ⟨some ⟨true, "hat visible on subject's head"⟩⟩
    ⟨true, "hat visible on subject's head"⟩ rfl rfl rfl

/-- C9: the free-text variant's request depends only on the question text — two
calls with different image URL arguments build identical requests — and the
request carries no image URL at all, neither the candidate's nor any of the
three references'. -/
theorem freeText_request_independent_of_image (u1 u2 q : String) :
    buildFreeTextRequest u1 q = buildFreeTextRequest u2 q
    ∧ requestImageUrls (buildFreeTextRequest u1 q) = [] :=
  ⟨rfl, rfl⟩

/-- C10: when the schema-validated call itself succeeds but the response has no
choices, no message, or no parsed content, `askOpenAIAboutImage` returns an
absent value rather than throwing or producing a verdict. -/
theorem schema_missing_parsed_returns_none (imageUrl : String) (resp : ChatResponse)
    (h : resp.choices = []
      ∨ (∃ c rest, resp.choices = c :: rest ∧ c.message = none)
      ∨ (∃ c rest m, resp.choices = c :: rest ∧ c.message = some m ∧ m.parsed = none)) :
    askOpenAIAboutImage imageUrl (Except.ok resp) = Except.ok none := by
  rcases h with h | ⟨c, rest, hc, hm⟩ | ⟨c, rest, m, hc, hm, hp⟩
  · simp [askOpenAIAboutImage, extractParsed, h]
  · simp [askOpenAIAboutImage, extractParsed, hc, hm]
  · simp [askOpenAIAboutImage, extractParsed, hc, hm, hp]

/-- Witness for C10: an empty `choices` list yields an absent verdict without
an error. -/
theorem schema_missing_parsed_returns_none_witness :
    askOpenAIAboutImage "https://pbs.example/c10.jpg" (Except.ok ⟨[]⟩)
      = Except.ok none :=
  schema_missing_parsed_returns_none "https://pbs.example/c10.jpg" ⟨[]⟩ (Or.inl rfl)

end ProofOfHat
